import Mathlib

/-!
Shallow embedding of the XRPL ISO 20022 middleware codec:
the mapper (src/services/MappingEngine.js), the serializer
(src/services/XMLGenerator.js) and the validator
(src/services/ValidationService.js), together with theorems settling the
claims about them.

Conventions of the embedding:
* JavaScript values that may be `undefined` are modelled as `Option`.
* Thrown JavaScript exceptions are modelled as `Except String` with the
  message of the thrown error (apostrophes are omitted from the modelled
  messages).
* `uuidv4()` and `new Date()` are nondeterministic; they are modelled as
  explicit oracle arguments threaded into the mapping function, one per
  call site.
* JavaScript numbers are modelled exactly (integers and exact decimal
  rendering); this is faithful for the magnitudes the middleware handles
  (below 2^53, at most 6 fractional digits after division by 1,000,000).
-/

/-! ### Basic character and number helpers (JavaScript builtins) -/

/-- Hexadecimal value of a character, `none` when it is not a hex digit. -/
def hexVal (c : Char) : Option Nat :=
  if '0' ≤ c ∧ c ≤ '9' then some (c.toNat - 48)
  else if 'a' ≤ c ∧ c ≤ 'f' then some (c.toNat - 87)
  else if 'A' ≤ c ∧ c ≤ 'F' then some (c.toNat - 55)
  else none

/-- Value of a list of decimal digit characters. -/
def decDigitsVal (cs : List Char) : Nat :=
  cs.foldl (fun acc c => 10 * acc + (c.toNat - 48)) 0

/-- Value of a list of hexadecimal digit characters. -/
def hexDigitsVal (cs : List Char) : Nat :=
  cs.foldl (fun acc c => 16 * acc + ((hexVal c).getD 0)) 0

/-- Digit-run part of JavaScript `parseInt` (radix 10 with the `0x` hex
prefix), applied after sign handling; `none` models `NaN`. -/
def parseIntCore (cs : List Char) : Option Nat :=
  match cs with
  | '0' :: c :: rest =>
    if c = 'x' ∨ c = 'X' then
      let ds := rest.takeWhile (fun d => (hexVal d).isSome)
      if ds.isEmpty then none else some (hexDigitsVal ds)
    else
      let ds := ('0' :: c :: rest).takeWhile Char.isDigit
      some (decDigitsVal ds)
  | _ =>
    let ds := cs.takeWhile Char.isDigit
    if ds.isEmpty then none else some (decDigitsVal ds)

/-- JavaScript `parseInt(s)`: skip leading whitespace, optional sign, then
the longest digit prefix; `none` models `NaN`.  Exact for results below
2^53, which is the range this middleware handles. -/
def parseIntJS (s : String) : Option Int :=
  let cs := s.data.dropWhile (fun c => c == ' ' || c == '\t' || c == '\n' || c == '\r')
  match cs with
  | '-' :: rest => (parseIntCore rest).map (fun n => -(n : Int))
  | '+' :: rest => (parseIntCore rest).map (fun n => (n : Int))
  | _ => (parseIntCore cs).map (fun n => (n : Int))

/-- The six decimal digits of `fp < 1000000`, most significant first. -/
def fracDigits6 (fp : Nat) : List Char :=
  [Nat.digitChar (fp / 100000 % 10), Nat.digitChar (fp / 10000 % 10),
   Nat.digitChar (fp / 1000 % 10), Nat.digitChar (fp / 100 % 10),
   Nat.digitChar (fp / 10 % 10), Nat.digitChar (fp % 10)]

/-- Remove trailing `0` characters. -/
def stripTrailingZeros (cs : List Char) : List Char :=
  (cs.reverse.dropWhile (fun c => c == '0')).reverse

/-- JavaScript `(n / 1000000).toString()` for an integer `n` (`none` is
`NaN`): exact decimal rendering with trailing zeros removed, which is what
JavaScript shortest round-trip printing produces in the exact range. -/
def dropsToStr (o : Option Int) : String :=
  match o with
  | none => "NaN"
  | some n =>
    let m := n.natAbs
    let sign := if n < 0 then "-" else ""
    let ip := m / 1000000
    let fp := m % 1000000
    if fp = 0 then sign ++ toString ip
    else sign ++ toString ip ++ "." ++ String.mk (stripTrailingZeros (fracDigits6 fp))

/-- Node `Buffer.from(s, "hex")`: decode hex pairs from the front, stop at
the first invalid pair (an odd trailing digit is dropped). -/
def hexDecode : List Char → List Nat
  | c1 :: c2 :: rest =>
    match hexVal c1, hexVal c2 with
    | some h, some l => (16 * h + l) :: hexDecode rest
    | _, _ => []
  | _ => []

/-- Is a byte a UTF-8 continuation byte. -/
def isUtf8Cont (b : Nat) : Bool := 128 ≤ b && b < 192

/-- The Unicode replacement character U+FFFD. -/
def replChar : Char := Char.ofNat 65533

/-- UTF-8 decoding with replacement of malformed sequences (Node
`buffer.toString("utf8")`); on a malformed sequence it emits U+FFFD and
resynchronises at the next byte. -/
def utf8DecodeLoop : List Nat → List Char
  | [] => []
  | b :: rest =>
    if b < 128 then Char.ofNat b :: utf8DecodeLoop rest
    else if 194 ≤ b ∧ b ≤ 223 then
      match rest with
      | b2 :: r2 =>
        if isUtf8Cont b2 then
          Char.ofNat ((b - 192) * 64 + (b2 - 128)) :: utf8DecodeLoop r2
        else replChar :: utf8DecodeLoop (b2 :: r2)
      | [] => [replChar]
    else if 224 ≤ b ∧ b ≤ 239 then
      match rest with
      | b2 :: b3 :: r3 =>
        if (if b = 224 then 160 ≤ b2 && b2 ≤ 191
            else if b = 237 then 128 ≤ b2 && b2 ≤ 159
            else isUtf8Cont b2) && isUtf8Cont b3 then
          Char.ofNat ((b - 224) * 4096 + (b2 - 128) * 64 + (b3 - 128)) :: utf8DecodeLoop r3
        else replChar :: utf8DecodeLoop (b2 :: b3 :: r3)
      | [b2] => replChar :: utf8DecodeLoop [b2]
      | [] => [replChar]
    else if 240 ≤ b ∧ b ≤ 244 then
      match rest with
      | b2 :: b3 :: b4 :: r4 =>
        if (if b = 240 then 144 ≤ b2 && b2 ≤ 191
            else if b = 244 then 128 ≤ b2 && b2 ≤ 143
            else isUtf8Cont b2) && isUtf8Cont b3 && isUtf8Cont b4 then
          Char.ofNat ((b - 240) * 262144 + (b2 - 128) * 4096 + (b3 - 128) * 64 + (b4 - 128))
            :: utf8DecodeLoop r4
        else replChar :: utf8DecodeLoop (b2 :: b3 :: b4 :: r4)
      | [b2, b3] => replChar :: utf8DecodeLoop [b2, b3]
      | [b2] => replChar :: utf8DecodeLoop [b2]
      | [] => [replChar]
    else replChar :: utf8DecodeLoop rest

/-- Node `Buffer.from(hex, "hex").toString("utf8")`. -/
def hexToUtf8 (s : String) : String :=
  String.mk (utf8DecodeLoop (hexDecode s.data))

/-! ### Mapper data model (src/services/MappingEngine.js) -/

/-- The `Amount` field of a raw XRPL transaction: a drops string, a
`{currency, value, issuer}` object (each field possibly absent), or a
value of any other JavaScript type (modelled opaquely). -/
inductive XRPLAmount where
  | str (s : String)
  | obj (currency : Option String) (value : Option String) (issuer : Option String)
  | otherShape
deriving DecidableEq

/-- The inner `Memo` object of a memo entry. -/
structure MemoObj where
  MemoData : Option String
deriving DecidableEq

/-- One entry of the `Memos` array. -/
structure MemoEntry where
  Memo : MemoObj
deriving DecidableEq

/-- A raw XRPL ledger transaction, with the fields the mapping engine
reads.  `Amount` is `none` when the field is absent. -/
structure XRPLTransaction where
  Amount : Option XRPLAmount
  Account : String
  Destination : String
  hash : String
  Memos : List MemoEntry
deriving DecidableEq

/-- Fixed-shape postal address placeholder produced by the mapper. -/
structure PostalAddress where
  addressType : String
  department : String
  streetName : String
  buildingNumber : String
  postCode : String
  townName : String
  country : String
deriving DecidableEq

/-- A party (debtor or creditor) of the canonical record. -/
structure Party where
  name : String
  identification : String
  address : PostalAddress
deriving DecidableEq

/-- An account of the canonical record. -/
structure AccountInfo where
  identification : String
  currency : String
deriving DecidableEq

/-- An instructed amount of the canonical record. -/
structure InstructedAmount where
  currency : String
  value : String
deriving DecidableEq

/-- The remittance information of the canonical record. -/
structure RemitInfo where
  unstructured : String
deriving DecidableEq

/-- The canonical payment record produced by `mapXRPLToISO20022`
(`remittanceInformation` is an `Option` because the serializer tests the
field for JavaScript truthiness). -/
structure MappedData where
  messageId : String
  creationDateTime : String
  numberOfTransactions : String
  controlSum : String
  instructionId : String
  endToEndId : String
  transactionId : String
  instructedAmount : InstructedAmount
  debtor : Party
  debtorAccount : AccountInfo
  creditor : Party
  creditorAccount : AccountInfo
  remittanceInformation : Option RemitInfo
  chargeBearer : String
  purposeCode : String
deriving DecidableEq

/-- Remove every hyphen from `raw`, then keep at most the first 35
characters (the JS global hyphen replace followed by `slice(0, 35)`). -/
def stripAndTrim (raw : String) : String :=
  String.mk ((raw.data.filter (fun c => c != '-')).take 35)

/-- `generateMsgId(source)`: use the source if truthy (non-empty), else a
fresh UUID (the `uuid` oracle argument), strip hyphens, keep 35 chars. -/
def generateMsgId (source : String) (uuid : String) : String :=
  stripAndTrim (if source = "" then uuid else source)

/-- `extractAmount(amount)`: a string is `parseInt`-ed and divided by
1,000,000; an object with a truthy `value` yields that value; everything
else (including an absent amount) yields `"0"`. -/
def extractAmount (amount : Option XRPLAmount) : String :=
  match amount with
  | some (.str s) => dropsToStr (parseIntJS s)
  | some (.obj _ v _) =>
    match v with
    | some s => if s = "" then "0" else s
    | none => "0"
  | some .otherShape => "0"
  | none => "0"

/-- `Amount.currency || "HCT"` on a present amount. -/
def amountCurrency (a : XRPLAmount) : String :=
  match a with
  | .obj (some c) _ _ => if c = "" then "HCT" else c
  | _ => "HCT"

/-- `extractAccountName(account)`. -/
def extractAccountName (account : String) : String :=
  "Account_" ++ String.mk (account.data.take 8)

/-- `extractAccountAddress(account)`. -/
def extractAccountAddress (account : String) : PostalAddress :=
  { addressType := "ADDR", department := "XRPL", streetName := account,
    buildingNumber := "1", postCode := "00000", townName := "Digital", country := "XX" }

/-- `extractMemo(transaction)`: hex/UTF-8 decode of the first memo payload
when present and truthy; `none` models the `null` return. -/
def extractMemo (tx : XRPLTransaction) : Option String :=
  match tx.Memos with
  | [] => none
  | e :: _ =>
    match e.Memo.MemoData with
    | some md => if md = "" then none else some (hexToUtf8 md)
    | none => none

/-- `extractRemittanceInfo(transaction)`: the decoded memo if truthy, else
the fallback string naming the transaction hash. -/
def extractRemittanceInfo (tx : XRPLTransaction) : RemitInfo :=
  { unstructured :=
      match extractMemo tx with
      | some s => if s = "" then "HCT Transfer - " ++ tx.hash else s
      | none => "HCT Transfer - " ++ tx.hash }

/-- Message of the TypeError thrown by `xrplTransaction.Amount.currency`
when `Amount` is absent (apostrophes omitted). -/
def amountAccessTypeError : String :=
  "TypeError: Cannot read properties of undefined (reading currency)"

/-- `mapXRPLToISO20022(xrplTransaction)`: builds the canonical record.
`uuidMsg`, `uuidInstr`, `uuidE2E` are the oracle values of the three
`uuidv4()` call sites (message id, and the two `generateMsgId` fallbacks);
`now` is the oracle value of `new Date().toISOString()`.  When `Amount` is
absent the property access `Amount.currency` throws. -/
def mapXRPLToISO20022 (tx : XRPLTransaction)
    (uuidMsg uuidInstr uuidE2E : String) (now : String) :
    Except String MappedData :=
  match tx.Amount with
  | none => .error amountAccessTypeError
  | some a =>
    .ok
      { messageId := stripAndTrim uuidMsg
        creationDateTime := now
        numberOfTransactions := "1"
        controlSum := extractAmount tx.Amount
        instructionId := generateMsgId tx.hash uuidInstr
        endToEndId := generateMsgId tx.hash uuidE2E
        transactionId := tx.hash
        instructedAmount :=
          { currency := amountCurrency a, value := extractAmount tx.Amount }
        debtor :=
          { name := extractAccountName tx.Account, identification := tx.Account,
            address := extractAccountAddress tx.Account }
        debtorAccount :=
          { identification := tx.Account, currency := amountCurrency a }
        creditor :=
          { name := extractAccountName tx.Destination, identification := tx.Destination,
            address := extractAccountAddress tx.Destination }
        creditorAccount :=
          { identification := tx.Destination, currency := amountCurrency a }
        remittanceInformation := some (extractRemittanceInfo tx)
        chargeBearer := "SLEV"
        purposeCode := "CBFF" }

/-- `messageId` of a mapping result (empty string on a thrown error). -/
def msgIdOf (r : Except String MappedData) : String :=
  match r with
  | .ok d => d.messageId
  | .error _ => ""

/-- `instructionId` of a mapping result. -/
def instrIdOf (r : Except String MappedData) : String :=
  match r with
  | .ok d => d.instructionId
  | .error _ => ""

/-- `endToEndId` of a mapping result. -/
def e2eIdOf (r : Except String MappedData) : String :=
  match r with
  | .ok d => d.endToEndId
  | .error _ => ""

/-- `instructedAmount` of a mapping result. -/
def instAmtOf (r : Except String MappedData) : Option InstructedAmount :=
  match r with
  | .ok d => some d.instructedAmount
  | .error _ => none

/-- `remittanceInformation.unstructured` of a mapping result. -/
def remitOf (r : Except String MappedData) : String :=
  match r with
  | .ok d =>
    match d.remittanceInformation with
    | some ri => ri.unstructured
    | none => ""
  | .error _ => ""

/-- Did the mapping succeed. -/
def mapOk (r : Except String MappedData) : Bool :=
  match r with
  | .ok _ => true
  | .error _ => false

/-- The thrown error of a mapping result, `none` on success. -/
def mapErr (r : Except String MappedData) : Option String :=
  match r with
  | .ok _ => none
  | .error m => some m

/-! ### XML documents and the two parsed views

A well-formed XML document is modelled as an element tree `XElem`
(mutually inductive with its child list `XList` so that every function is
structurally recursive and kernel-reducible).  The validator inspects two
views of the same document: the object view produced by `xml2js`
(`parseString` with `explicitArray: false`), modelled by `JValue`, and the
DOM view (`@xmldom/xmldom`), modelled by the tree itself. -/

mutual
inductive XElem where
  | mk (name : String) (attrs : List (String × String)) (children : XList) (text : String)
inductive XList where
  | nil
  | cons (e : XElem) (rest : XList)
end

/-- The tag name of an element. -/
def XElem.name : XElem → String
  | .mk n _ _ _ => n

/-- The attribute list of an element. -/
def XElem.attrs : XElem → List (String × String)
  | .mk _ a _ _ => a

/-- Convert a `List` of elements into an `XList`. -/
def toXList : List XElem → XList
  | [] => .nil
  | e :: rest => .cons e (toXList rest)

/-- A leaf element carrying only text. -/
def xleaf (n t : String) : XElem := .mk n [] .nil t

/-- An element with child elements and no text. -/
def xnode (n : String) (cs : List XElem) : XElem := .mk n [] (toXList cs) ""

/-- An element with attributes, children and text. -/
def xelem (n : String) (attrs : List (String × String)) (cs : List XElem) (t : String) :
    XElem := .mk n attrs (toXList cs) t

mutual
/-- All elements of the tree with the given tag name, in document order
(DOM `getElementsByTagName`, with the root included). -/
def elemsNamed : XElem → String → List XElem
  | .mk nm a cs t, n =>
    (if nm = n then [XElem.mk nm a cs t] else []) ++ elemsNamedL cs n
def elemsNamedL : XList → String → List XElem
  | .nil, _ => []
  | .cons e rest, n => elemsNamed e n ++ elemsNamedL rest n
end

/-- Number of elements with the given tag name in the tree. -/
def countElems (doc : XElem) (n : String) : Nat :=
  (elemsNamed doc n).length

mutual
/-- DOM `textContent`: the concatenated text of the element and its
descendants. -/
def textContent : XElem → String
  | .mk _ _ cs t => t ++ textContentL cs
def textContentL : XList → String
  | .nil => ""
  | .cons e rest => textContent e ++ textContentL rest
end

mutual
/-- A JavaScript value as produced by `xml2js` with `explicitArray:
false`: a string, an object with ordered fields, or an array. -/
inductive JValue where
  | str (s : String)
  | obj (fields : JFields)
  | arr (elems : JList)
inductive JFields where
  | nil
  | cons (k : String) (v : JValue) (rest : JFields)
inductive JList where
  | nil
  | cons (v : JValue) (rest : JList)
end

/-- Append a field at the end of a field list. -/
def appendField : JFields → String → JValue → JFields
  | .nil, k, v => .cons k v .nil
  | .cons k0 v0 rest, k, v => .cons k0 v0 (appendField rest k v)

/-- Append a value at the end of a `JList`. -/
def jlAppend : JList → JValue → JList
  | .nil, v => .cons v .nil
  | .cons v0 rest, v => .cons v0 (jlAppend rest v)

/-- Length of a `JList`. -/
def jlLength : JList → Nat
  | .nil => 0
  | .cons _ rest => 1 + jlLength rest

/-- Record a child under its tag name, following the `xml2js` grouping:
the first occurrence is stored directly, later occurrences turn the entry
into a growing array. -/
def addField : JFields → String → JValue → JFields
  | .nil, k, v => .cons k v .nil
  | .cons k0 v0 rest, k, v =>
    if k0 = k then
      match v0 with
      | .arr xs => .cons k0 (.arr (jlAppend xs v)) rest
      | _ => .cons k0 (.arr (.cons v0 (.cons v .nil))) rest
    else .cons k0 v0 (addField rest k v)

/-- The `$` attribute object of `xml2js`. -/
def attrsToJ (attrs : List (String × String)) : JValue :=
  .obj (attrs.foldr (fun (p : String × String) acc => JFields.cons p.1 (.str p.2) acc) .nil)

/-- The initial field list of a converted element: the `$` attribute entry
when attributes are present, then the `_` text entry when the element also
has text. -/
def startFields (attrs : List (String × String)) (text : String) : JFields :=
  let base : JFields := if attrs = [] then .nil else .cons "$" (attrsToJ attrs) .nil
  if text = "" then base else appendField base "_" (.str text)

mutual
/-- `xml2js` conversion of an element (`explicitArray: false`): an element
with neither attributes nor children collapses to its text; otherwise it
becomes an object of its attributes, text and grouped children. -/
def toJ : XElem → JValue
  | .mk _ attrs .nil t =>
    if attrs = [] then .str t else .obj (startFields attrs t)
  | .mk _ attrs (.cons c cs) t =>
    .obj (toJFold (.cons c cs) (startFields attrs t))
/-- Fold the children of an element into the accumulated field list. -/
def toJFold : XList → JFields → JFields
  | .nil, acc => acc
  | .cons e rest, acc => toJFold rest (addField acc e.name (toJ e))
end

/-- The full `parseString` result: an object with the root name as its
single key. -/
def toParsed (root : XElem) : JValue :=
  .obj (.cons root.name (toJ root) .nil)

/-- JavaScript truthiness of a parsed value (objects and arrays are
truthy, a string is truthy when non-empty). -/
def truthyJ : JValue → Bool
  | .str s => if s = "" then false else true
  | .obj _ => true
  | .arr _ => true

/-- Truthiness of an optional value (`none` is `null`). -/
def truthyOpt : Option JValue → Bool
  | some v => truthyJ v
  | none => false

mutual
/-- `findFieldInXML(obj, fieldName)`: depth-first search for a key equal
to the field name.  A direct key match returns its value even when falsy;
a falsy recursive result is discarded and the search continues.  Strings
are not descended into (`typeof` check); arrays are iterated like objects
with index keys. -/
def findFieldInXML : JValue → String → Option JValue
  | .str _, _ => none
  | .obj fs, n => findFieldInFields fs n
  | .arr xs, n => findFieldInArr xs 0 n
def findFieldInFields : JFields → String → Option JValue
  | .nil, _ => none
  | .cons k v rest, n =>
    if k = n then some v
    else
      match v with
      | .str _ => findFieldInFields rest n
      | _ =>
        match findFieldInXML v n with
        | some r => if truthyJ r then some r else findFieldInFields rest n
        | none => findFieldInFields rest n
def findFieldInArr : JList → Nat → String → Option JValue
  | .nil, _, _ => none
  | .cons v rest, i, n =>
    if toString i = n then some v
    else
      match v with
      | .str _ => findFieldInArr rest (i + 1) n
      | _ =>
        match findFieldInXML v n with
        | some r => if truthyJ r then some r else findFieldInArr rest (i + 1) n
        | none => findFieldInArr rest (i + 1) n
end

/-! ### Validator (src/services/ValidationService.js) -/

/-- The two regular expressions of the rule table. -/
inductive RulePattern where
  | msgIdPat
  | amountPat
deriving DecidableEq

/-- Is a character in the class `[A-Za-z0-9]`. -/
def isAlnumAscii (c : Char) : Bool :=
  ('A' ≤ c && c ≤ 'Z') || ('a' ≤ c && c ≤ 'z') || ('0' ≤ c && c ≤ '9')

/-- Split a character list at `.` separators (JavaScript string split). -/
def splitOnDot (cs : List Char) : List (List Char) :=
  match cs with
  | [] => [[]]
  | c :: rest =>
    let tail := splitOnDot rest
    if c = '.' then [] :: tail
    else
      match tail with
      | [] => [[c]]
      | g :: gs => (c :: g) :: gs

/-- Test of one rule-table regular expression against a string:
`msgIdPat` is one or more characters of `[A-Za-z0-9-]`; `amountPat` is
digits, a dot, and exactly two digits. -/
def patTest (p : RulePattern) (s : String) : Bool :=
  match p with
  | .msgIdPat =>
    !s.data.isEmpty && s.data.all (fun c => isAlnumAscii c || c == '-')
  | .amountPat =>
    match splitOnDot s.data with
    | [ip, fp] =>
      !ip.isEmpty && ip.all Char.isDigit && fp.length = 2 && fp.all Char.isDigit
    | _ => false

mutual
/-- JavaScript string coercion of a parsed value, as applied by
`pattern.test(value)` (an object prints as `[object Object]`; an array
joins its coerced elements with commas). -/
def coerceStr : JValue → String
  | .str s => s
  | .obj _ => "[object Object]"
  | .arr xs => coerceArr xs
/-- Comma-joined coercion of an array. -/
def coerceArr : JList → String
  | .nil => ""
  | .cons v .nil => coerceStr v
  | .cons v rest => coerceStr v ++ "," ++ coerceArr rest
end

/-- One rule-table entry.  `patterns` is an `Option` because the
`pain001` entry does not declare the key at all. -/
structure RuleEntry where
  required : List String
  maxLength : List (String × Nat)
  patterns : Option (List (String × RulePattern))
deriving DecidableEq

/-- `loadValidationRules()`, looked up by the dot-stripped message type. -/
def loadValidationRules (key : String) : Option RuleEntry :=
  if key = "pacs008" then
    some { required := ["MsgId", "CreDtTm", "NbOfTxs", "InstrId", "EndToEndId"],
           maxLength := [("MsgId", 35), ("InstrId", 35), ("EndToEndId", 35)],
           patterns := some [("MsgId", .msgIdPat), ("Amount", .amountPat)] }
  else if key = "pain001" then
    some { required := ["MsgId", "CreDtTm", "NbOfTxs", "EndToEndId"],
           maxLength := [("MsgId", 35), ("EndToEndId", 35)],
           patterns := none }
  else none

/-- Remove the first `.` of a character list. -/
def stripFirstDotL : List Char → List Char
  | [] => []
  | c :: rest => if c = '.' then rest else c :: stripFirstDotL rest

/-- `messageType.replace(".", "")`: remove only the first dot. -/
def stripFirstDot (s : String) : String :=
  String.mk (stripFirstDotL s.data)

/-- The `value.length > maxLen` test of the max-length loop: a string
compares its length, an array its element count, an object has no
`length` (the comparison is false). -/
def jsLenGT (v : JValue) (maxLen : Nat) : Bool :=
  match v with
  | .str s => maxLen < s.data.length
  | .arr xs => maxLen < jlLength xs
  | .obj _ => false

/-- The required-field loop: throw on the first required field whose
lookup is falsy. -/
def checkRequired (parsed : JValue) : List String → Except String Unit
  | [] => .ok ()
  | f :: rest =>
    if truthyOpt (findFieldInXML parsed f) then checkRequired parsed rest
    else .error ("Required field " ++ f ++ " is missing")

/-- The max-length loop: throw on the first found truthy field whose
length exceeds its limit. -/
def checkMaxLength (parsed : JValue) : List (String × Nat) → Except String Unit
  | [] => .ok ()
  | (f, maxLen) :: rest =>
    match findFieldInXML parsed f with
    | some v =>
      if truthyJ v && jsLenGT v maxLen then
        .error ("Field " ++ f ++ " exceeds maximum length of " ++ toString maxLen)
      else checkMaxLength parsed rest
    | none => checkMaxLength parsed rest

/-- The pattern loop: throw on the first found truthy field whose coerced
value fails its pattern. -/
def checkPatterns (parsed : JValue) : List (String × RulePattern) → Except String Unit
  | [] => .ok ()
  | (f, p) :: rest =>
    match findFieldInXML parsed f with
    | some v =>
      if truthyJ v && !(patTest p (coerceStr v)) then
        .error ("Field " ++ f ++ " does not match required pattern")
      else checkPatterns parsed rest
    | none => checkPatterns parsed rest

/-- Message of the TypeError thrown by `Object.entries(rules.patterns)`
when the rule entry declares no `patterns` key. -/
def entriesTypeError : String := "Cannot convert undefined or null to object"

/-- `validateISO20022Rules(xmlString, messageType)` on the parsed
document: silently succeeds when no rule entry matches; otherwise runs the
fail-fast required, max-length and pattern loops.  When the entry has no
`patterns` mapping, `Object.entries(undefined)` throws. -/
def validateISO20022Rules (parsed : JValue) (messageType : String) :
    Except String Unit :=
  match loadValidationRules (stripFirstDot messageType) with
  | none => .ok ()
  | some rules => do
    checkRequired parsed rules.required
    checkMaxLength parsed rules.maxLength
    match rules.patterns with
    | none => .error entriesTypeError
    | some ps => checkPatterns parsed ps

/-- `getRequiredElements(messageType)`. -/
def getRequiredElements (messageType : String) : List String :=
  if messageType = "pacs.008" then ["GrpHdr", "CdtTrfTxInf", "IntrBkSttlmAmt"]
  else if messageType = "pain.001" then ["GrpHdr", "PmtInf", "CdtTrfTxInf"]
  else []

/-- `isValidBIC(bic)`: six letters, two alphanumerics, optionally three
more alphanumerics (uppercase only). -/
def isValidBIC (bic : String) : Bool :=
  let cs := bic.data
  let upper := fun c => 'A' ≤ c && c ≤ 'Z'
  let upnum := fun c => ('A' ≤ c && c ≤ 'Z') || ('0' ≤ c && c ≤ '9')
  (cs.length = 8 || cs.length = 11)
    && (cs.take 6).all upper && (cs.drop 6).all upnum

/-- `isValidAmount(amount)`: digits with an optional fraction of one to
five digits. -/
def isValidAmount (amount : String) : Bool :=
  match splitOnDot amount.data with
  | [ip] => !ip.isEmpty && ip.all Char.isDigit
  | [ip, fp] =>
    !ip.isEmpty && ip.all Char.isDigit
      && 1 ≤ fp.length && fp.length ≤ 5 && fp.all Char.isDigit
  | _ => false

/-- The result object of `validateWithEnhancedRules`. -/
structure EnhancedResult where
  valid : Bool
  errors : List String
  warnings : List String
deriving DecidableEq

/-- `validateWithEnhancedRules(xmlString, messageType)` on the DOM view:
missing required elements, then invalid BIC elements, then invalid
`InstdAmt` elements; never throws on a well-formed document. -/
def validateWithEnhancedRules (doc : XElem) (messageType : String) :
    EnhancedResult :=
  let missing :=
    ((getRequiredElements messageType).filter
      (fun e => countElems doc e = 0)).map
      (fun e => "Missing required element: " ++ e)
  let bicErrs :=
    (((elemsNamed doc "BIC").map textContent).filter
      (fun b => !(isValidBIC b))).map
      (fun b => "Invalid BIC format: " ++ b)
  let amtErrs :=
    (((elemsNamed doc "InstdAmt").map textContent).filter
      (fun a => !(isValidAmount a))).map
      (fun a => "Invalid amount format: " ++ a)
  let errors := missing ++ bicErrs ++ amtErrs
  { valid := errors.isEmpty, errors := errors, warnings := [] }

/-- The validation result returned by `validateXML`. -/
structure ValidationResult where
  isValid : Bool
  errors : List String
  warnings : List String
  swiftValidation : Option EnhancedResult
deriving DecidableEq

/-- The constructor state of `ValidationService`: the configured external
endpoint URL (`process.env.SWIFT_SANDBOX_URL`), which the rest of the
class never reads. -/
structure ValidationService where
  swiftSandboxUrl : Option String
deriving DecidableEq

/-- `validateXML(xmlString, messageType)` on a well-formed document (the
structural parse succeeded, yielding the element tree): the fail-fast ISO
rule check is caught as a single error; otherwise the enhanced result is
stored and merged.  No external request is ever made. -/
def validateXML (svc : ValidationService) (doc : XElem) (messageType : String) :
    ValidationResult :=
  match validateISO20022Rules (toParsed doc) messageType with
  | .error msg =>
    { isValid := false, errors := [msg], warnings := [], swiftValidation := none }
  | .ok _ =>
    let enhancedResults := validateWithEnhancedRules doc messageType
    if enhancedResults.valid then
      { isValid := true, errors := [], warnings := [],
        swiftValidation := some enhancedResults }
    else
      { isValid := false, errors := enhancedResults.errors,
        warnings := enhancedResults.warnings, swiftValidation := some enhancedResults }

/-! ### Serializer (src/services/XMLGenerator.js) -/

/-- The fixed pacs.008 namespace attributes. -/
def pacs008Namespaces : List (String × String) :=
  [("xmlns", "urn:iso:std:iso:20022:tech:xsd:pacs.008.001.08"),
   ("xmlns:xsi", "http://www.w3.org/2001/XMLSchema-instance")]

/-- `generatePacs008XML(mappedData)`: the element tree of the generated
document, in builder order.  The remittance block is emitted when the
`remittanceInformation` object is truthy (present); the purpose block when
`purposeCode` is truthy (non-empty). -/
def generatePacs008XML (d : MappedData) : XElem :=
  xelem "Document" pacs008Namespaces
    [xnode "FIToFICstmrCdtTrf"
      [xnode "GrpHdr"
        [xleaf "MsgId" d.messageId,
         xleaf "CreDtTm" d.creationDateTime,
         xleaf "NbOfTxs" d.numberOfTransactions,
         xleaf "CtrlSum" d.controlSum,
         xnode "InstgAgt" [xnode "FinInstnId" [xnode "Othr" [xleaf "Id" "HCTMIDDLEWARE"]]],
         xnode "InstdAgt" [xnode "FinInstnId" [xnode "Othr" [xleaf "Id" "XRPLEDGER"]]]],
       xnode "CdtTrfTxInf"
        ([xnode "PmtId"
           [xleaf "InstrId" d.instructionId,
            xleaf "EndToEndId" d.endToEndId,
            xleaf "TxId" d.transactionId],
          xelem "IntrBkSttlmAmt" [("Ccy", d.instructedAmount.currency)] []
            d.instructedAmount.value,
          xleaf "ChrgBr" d.chargeBearer,
          xnode "Dbtr"
           [xleaf "Nm" d.debtor.name,
            xnode "Id" [xnode "OrgId" [xnode "Othr" [xleaf "Id" d.debtor.identification]]]],
          xnode "DbtrAcct" [xnode "Id" [xnode "Othr" [xleaf "Id" d.debtorAccount.identification]]],
          xnode "Cdtr"
           [xleaf "Nm" d.creditor.name,
            xnode "Id" [xnode "OrgId" [xnode "Othr" [xleaf "Id" d.creditor.identification]]]],
          xnode "CdtrAcct" [xnode "Id" [xnode "Othr" [xleaf "Id" d.creditorAccount.identification]]]]
         ++ (match d.remittanceInformation with
             | some ri => [xnode "RmtInf" [xleaf "Ustrd" ri.unstructured]]
             | none => [])
         ++ (if d.purposeCode = "" then []
             else [xnode "Purp" [xleaf "Cd" d.purposeCode]]))]]
    ""

/-- The fixed pain.001 namespace attributes. -/
def pain001Namespaces : List (String × String) :=
  [("xmlns", "urn:iso:std:iso:20022:tech:xsd:pain.001.001.09"),
   ("xmlns:xsi", "http://www.w3.org/2001/XMLSchema-instance")]

/-- `generatePain001XML(mappedData)`: the element tree of the generated
document, in builder order. -/
def generatePain001XML (d : MappedData) : XElem :=
  xelem "Document" pain001Namespaces
    [xnode "CstmrCdtTrfInitn"
      [xnode "GrpHdr"
        [xleaf "MsgId" d.messageId,
         xleaf "CreDtTm" d.creationDateTime,
         xleaf "NbOfTxs" d.numberOfTransactions,
         xleaf "CtrlSum" d.controlSum,
         xnode "InitgPty"
          [xleaf "Nm" "Hoodie Chicken Middleware",
           xnode "Id" [xnode "OrgId" [xnode "Othr" [xleaf "Id" "HCT_MIDDLEWARE"]]]]],
       xnode "PmtInf"
        ([xleaf "PmtInfId" d.messageId,
          xleaf "PmtMtd" "TRF",
          xleaf "NbOfTxs" d.numberOfTransactions,
          xleaf "CtrlSum" d.controlSum,
          xnode "Dbtr"
           [xleaf "Nm" d.debtor.name,
            xnode "Id" [xnode "OrgId" [xnode "Othr" [xleaf "Id" d.debtor.identification]]]],
          xnode "DbtrAcct" [xnode "Id" [xnode "Othr" [xleaf "Id" d.debtorAccount.identification]]],
          xnode "CdtTrfTxInf"
           ([xnode "PmtId" [xleaf "EndToEndId" d.endToEndId],
             xnode "Amt"
              [xelem "InstdAmt" [("Ccy", d.instructedAmount.currency)] []
                d.instructedAmount.value],
             xnode "Cdtr" [xleaf "Nm" d.creditor.name],
             xnode "CdtrAcct" [xnode "Id" [xnode "Othr" [xleaf "Id" d.creditorAccount.identification]]]]
            ++ (match d.remittanceInformation with
                | some ri => [xnode "RmtInf" [xleaf "Ustrd" ri.unstructured]]
                | none => []))])]]
    ""

/-! ### Concrete instances used by the theorems -/

/-- Sample oracle value of a `uuidv4()` call. -/
def uuidSampleA : String := "a1b2c3d4-e5f6-4789-8abc-def012345678"

/-- A different sample oracle value of a `uuidv4()` call. -/
def uuidSampleB : String := "b9b2c3d4-e5f6-4789-8abc-def012345678"

/-- Sample oracle value of `new Date().toISOString()`. -/
def nowSample : String := "2025-01-01T00:00:00.000Z"

/-- The end-to-end raw transaction of the spec (object amount in HCT). -/
def tx8 : XRPLTransaction :=
  { Amount := some (.obj (some "HCT") (some "100.00") (some "rISSUER")),
    Account := "rDEBTOR123", Destination := "rCREDITOR456",
    hash := "TXN-001", Memos := [] }

/-- A transaction whose amount is present but of a shape outside the two
recognized ones: an object with no `value` field. -/
def tx5 : XRPLTransaction :=
  { Amount := some (.obj (some "USD") none none),
    Account := "rA", Destination := "rB", hash := "H5", Memos := [] }

/-- A transaction whose first memo hex-decodes to the UTF-8 text
`Test payment`. -/
def txMemoValid : XRPLTransaction :=
  { Amount := some (.str "15000000"), Account := "rA", Destination := "rB",
    hash := "HASH7", Memos := [⟨⟨some "54657374207061796d656e74"⟩⟩] }

/-- A transaction whose first memo carries invalid hex (`54zz`). -/
def txBadHex : XRPLTransaction :=
  { Amount := some (.str "15000000"), Account := "rA", Destination := "rB",
    hash := "HASH7", Memos := [⟨⟨some "54zz"⟩⟩] }

/-- A transaction without memos. -/
def txNoMemo : XRPLTransaction :=
  { Amount := some (.str "15000000"), Account := "rA", Destination := "rB",
    hash := "HASH7NM", Memos := [] }

/-- A sample canonical record with every rule-table field within limits. -/
def mapped3 : MappedData :=
  { messageId := "MSGID3", creationDateTime := "2025-01-01T00:00:00.000Z",
    numberOfTransactions := "1", controlSum := "10", instructionId := "INSTR3",
    endToEndId := "E2E3", transactionId := "HASH3",
    instructedAmount := { currency := "HCT", value := "10" },
    debtor := { name := "Account_rDEBTOR1", identification := "rDEBTOR123",
                address := extractAccountAddress "rDEBTOR123" },
    debtorAccount := { identification := "rDEBTOR123", currency := "HCT" },
    creditor := { name := "Account_rCREDITO", identification := "rCREDITOR456",
                  address := extractAccountAddress "rCREDITOR456" },
    creditorAccount := { identification := "rCREDITOR456", currency := "HCT" },
    remittanceInformation := some { unstructured := "note" },
    chargeBearer := "SLEV", purposeCode := "CBFF" }

/-- The canonical record obtained by mapping `tx8` (with `mapped3` as an
unreachable fallback for the error branch). -/
def mapped8 : MappedData :=
  match mapXRPLToISO20022 tx8 uuidSampleA uuidSampleB uuidSampleB nowSample with
  | .ok d => d
  | .error _ => mapped3

/-- A canonical record whose remittance text and purpose code are both
empty, the remittance object being present. -/
def recEmptyRemit : MappedData :=
  { mapped3 with remittanceInformation := some { unstructured := "" }, purposeCode := "" }

/-- A well-formed pacs.008-shaped document missing the required `InstrId`
and `EndToEndId` fields and containing one invalid BIC element. -/
def doc1 : XElem :=
  xnode "Document"
    [xnode "FIToFICstmrCdtTrf"
      [xnode "GrpHdr"
        [xleaf "MsgId" "MSG1", xleaf "CreDtTm" "2025-01-01T00:00:00Z", xleaf "NbOfTxs" "1"],
       xnode "CdtTrfTxInf" [xleaf "BIC" "NOTABIC"]]]

/-- A well-formed document containing an invalid BIC element. -/
def doc10 : XElem := xnode "Document" [xnode "Data" [xleaf "BIC" "XX"]]

/-- The pain.001 document generated from `mapped3`. -/
def doc3 : XElem := generatePain001XML mapped3

/-! ### Theorems settling the claims -/

/-- Claim C1 (code bug): feeding well-formed XML that is missing two
required fields (`InstrId`, `EndToEndId`) and contains one invalid BIC
element through a single `validateXML` call does NOT aggregate three
errors: the fail-fast required-field loop throws on the first missing
field, so the result carries exactly one error and the BIC is never
inspected, contradicting the spec-mandated collect-all behavior. -/
theorem validateXML_failfast_single_error :
    validateXML ⟨none⟩ doc1 "pacs.008"
      = ⟨false, ["Required field InstrId is missing"], [], none⟩
    ∧ (validateXML ⟨none⟩ doc1 "pacs.008").errors.length = 1 := by
  decide

/-- Claim C2 (counterexample): mapping the same raw transaction twice does
not yield an identical `messageId` — the message id is built from a fresh
`uuidv4()` on every call, ignoring the transaction hash, so two calls with
different UUID oracle values disagree. -/
theorem mapXRPL_messageId_not_deterministic :
    ¬ (msgIdOf (mapXRPLToISO20022 tx8 uuidSampleA uuidSampleB uuidSampleB nowSample)
        = msgIdOf (mapXRPLToISO20022 tx8 uuidSampleB uuidSampleB uuidSampleB nowSample)) := by
  decide

/-- Claim C2 (amended): for a transaction with a non-empty hash,
`instructionId`, `endToEndId` and `instructedAmount` are identical across
any two mapping calls, and within one call `instructionId` equals
`endToEndId`; only `messageId` is freshly generated per call. -/
theorem mapXRPL_hash_ids_deterministic (tx : XRPLTransaction)
    (u1 u2 u3 v1 v2 v3 t1 t2 : String) (h : tx.hash ≠ "") :
    instrIdOf (mapXRPLToISO20022 tx u1 u2 u3 t1)
      = instrIdOf (mapXRPLToISO20022 tx v1 v2 v3 t2)
    ∧ e2eIdOf (mapXRPLToISO20022 tx u1 u2 u3 t1)
      = e2eIdOf (mapXRPLToISO20022 tx v1 v2 v3 t2)
    ∧ instrIdOf (mapXRPLToISO20022 tx u1 u2 u3 t1)
      = e2eIdOf (mapXRPLToISO20022 tx u1 u2 u3 t1)
    ∧ instAmtOf (mapXRPLToISO20022 tx u1 u2 u3 t1)
      = instAmtOf (mapXRPLToISO20022 tx v1 v2 v3 t2) := by
  cases hA : tx.Amount <;>
    simp [mapXRPLToISO20022, hA, instrIdOf, e2eIdOf, instAmtOf, generateMsgId, h]

/-- Witness for the amended claim C2 at a concrete transaction and
concrete distinct oracle values. -/
theorem mapXRPL_hash_ids_deterministic_witness :
    instrIdOf (mapXRPLToISO20022 tx8 uuidSampleA uuidSampleB uuidSampleB nowSample)
      = instrIdOf (mapXRPLToISO20022 tx8 uuidSampleB uuidSampleA uuidSampleA "2026-02-02T00:00:00.000Z")
    ∧ e2eIdOf (mapXRPLToISO20022 tx8 uuidSampleA uuidSampleB uuidSampleB nowSample)
      = e2eIdOf (mapXRPLToISO20022 tx8 uuidSampleB uuidSampleA uuidSampleA "2026-02-02T00:00:00.000Z")
    ∧ instrIdOf (mapXRPLToISO20022 tx8 uuidSampleA uuidSampleB uuidSampleB nowSample)
      = e2eIdOf (mapXRPLToISO20022 tx8 uuidSampleA uuidSampleB uuidSampleB nowSample)
    ∧ instAmtOf (mapXRPLToISO20022 tx8 uuidSampleA uuidSampleB uuidSampleB nowSample)
      = instAmtOf (mapXRPLToISO20022 tx8 uuidSampleB uuidSampleA uuidSampleA "2026-02-02T00:00:00.000Z") :=
  mapXRPL_hash_ids_deterministic tx8 uuidSampleA uuidSampleB uuidSampleB
    uuidSampleB uuidSampleA uuidSampleA nowSample "2026-02-02T00:00:00.000Z" (by decide)

/-- Claim C5 (counterexample): a present amount of unrecognized shape (an
object without a `value` field) does NOT make the mapping fail with
`MalformedAmount` — the mapping succeeds and substitutes the default
instructed value `0`. -/
theorem map_unrecognized_amount_no_failure :
    mapOk (mapXRPLToISO20022 tx5 uuidSampleA uuidSampleB uuidSampleB nowSample) = true
    ∧ instAmtOf (mapXRPLToISO20022 tx5 uuidSampleA uuidSampleB uuidSampleB nowSample)
        = some ⟨"USD", "0"⟩ := by
  decide

/-- Claim C5 (amended): the mapping fails exactly when `tx.Amount` is
absent, and then with the TypeError of the `Amount.currency` property
access, not with a `MalformedAmount` error; every present amount shape
(recognized or not) yields a canonical record. -/
theorem map_fails_only_on_absent_amount (tx : XRPLTransaction)
    (u1 u2 u3 t : String) :
    mapErr (mapXRPLToISO20022 tx u1 u2 u3 t)
      = (match tx.Amount with
         | none => some amountAccessTypeError
         | some _ => none)
    ∧ mapOk (mapXRPLToISO20022 tx u1 u2 u3 t) = tx.Amount.isSome := by
  cases hA : tx.Amount <;> simp [mapXRPLToISO20022, hA, mapErr, mapOk]

/-- Claim C7 (counterexample): a memo whose payload is invalid hex
(`54zz`) does NOT make the mapping fail with `MemoDecodeError` — the hex
decode silently stops at the first invalid pair and the mapping succeeds
with the truncated decode `T` as the remittance text. -/
theorem map_invalid_hex_no_error :
    mapOk (mapXRPLToISO20022 txBadHex uuidSampleA uuidSampleB uuidSampleB nowSample) = true
    ∧ remitOf (mapXRPLToISO20022 txBadHex uuidSampleA uuidSampleB uuidSampleB nowSample)
        = "T" := by
  decide

/-- Claim C7 (amended): a first memo whose hex payload decodes to
`Test payment` yields exactly that remittance text, and a transaction
without memos yields the fallback string naming the transaction hash;
invalid hex is silently truncated (never a `MemoDecodeError`). -/
theorem memo_decode_behavior :
    remitOf (mapXRPLToISO20022 txMemoValid uuidSampleA uuidSampleB uuidSampleB nowSample)
      = "Test payment"
    ∧ (∀ (tx : XRPLTransaction) (u1 u2 u3 t : String),
        tx.Memos = [] → tx.Amount.isSome = true →
        remitOf (mapXRPLToISO20022 tx u1 u2 u3 t) = "HCT Transfer - " ++ tx.hash) := by
  constructor
  · decide
  · intro tx u1 u2 u3 t hm hA
    cases hAm : tx.Amount with
    | none => rw [hAm] at hA; simp at hA
    | some a =>
      simp [mapXRPLToISO20022, hAm, remitOf, extractRemittanceInfo, extractMemo, hm]

/-- Witness for the amended claim C7 at a concrete memo-less
transaction. -/
theorem memo_decode_behavior_witness :
    remitOf (mapXRPLToISO20022 txNoMemo uuidSampleA uuidSampleB uuidSampleB nowSample)
      = "HCT Transfer - HASH7NM" :=
  memo_decode_behavior.2 txNoMemo uuidSampleA uuidSampleB uuidSampleB nowSample rfl rfl

/-- Claim C9 (counterexample): an object amount whose `value` field is the
empty string does NOT contribute its value field unchanged — the
truthiness test on `amount.value` fails and the default `0` is returned
instead of the empty string. -/
theorem extractAmount_empty_value_not_unchanged :
    ¬ (extractAmount (some (.obj (some "HCT") (some "") none)) = "") := by
  decide

/-- Claim C9 (amended): a string amount is `parseInt`-ed and divided by
1,000,000 with exact decimal rendering (`15000000` gives `15`, `-2500000`
gives `-2.5`, a non-numeric string gives `NaN`); an object amount with a
truthy (non-empty) `value` contributes it unchanged; every other shape —
including an object with an absent or empty `value` — yields the default
`0`. -/
theorem extractAmount_shapes :
    extractAmount (some (.str "15000000")) = "15"
    ∧ extractAmount (some (.obj (some "HCT") (some "42.50") none)) = "42.50"
    ∧ (∀ (c i : Option String) (s : String), s ≠ "" →
        extractAmount (some (.obj c (some s) i)) = s)
    ∧ (∀ c i : Option String,
        extractAmount (some (.obj c none i)) = "0"
        ∧ extractAmount (some (.obj c (some "") i)) = "0")
    ∧ extractAmount (some .otherShape) = "0"
    ∧ extractAmount none = "0"
    ∧ (∀ s : String, extractAmount (some (.str s)) = dropsToStr (parseIntJS s))
    ∧ extractAmount (some (.str "abc")) = "NaN"
    ∧ extractAmount (some (.str "-2500000")) = "-2.5" := by
  refine ⟨by decide, by decide, ?_, ?_, by decide, by decide, fun s => rfl, by decide, by decide⟩
  · intro c i s hs
    simp [extractAmount, hs]
  · intro c i
    simp [extractAmount]

/-- Witness for the amended claim C9 at a concrete non-empty object
value. -/
theorem extractAmount_shapes_witness :
    extractAmount (some (.obj none (some "7") none)) = "7" :=
  extractAmount_shapes.2.2.1 none none "7" (by decide)

/-- Claim C3 (confirmed): any well-formed pain.001 document whose
required fields `MsgId`, `CreDtTm`, `NbOfTxs`, `EndToEndId` are present
(as non-empty strings) and within the 35-character limits is still
reported invalid with a single error: the pattern loop reads the absent
`patterns` mapping of the `pain001` rule entry and throws the TypeError
of `Object.entries(undefined)`, which the caller catches as the only
error. -/
theorem pain001_validation_always_fails (svc : ValidationService) (doc : XElem)
    (m cd nb e2 : String)
    (hm : findFieldInXML (toParsed doc) "MsgId" = some (.str m))
    (hm0 : m ≠ "") (hm35 : m.length ≤ 35)
    (hcd : findFieldInXML (toParsed doc) "CreDtTm" = some (.str cd)) (hcd0 : cd ≠ "")
    (hnb : findFieldInXML (toParsed doc) "NbOfTxs" = some (.str nb)) (hnb0 : nb ≠ "")
    (he : findFieldInXML (toParsed doc) "EndToEndId" = some (.str e2))
    (he0 : e2 ≠ "") (he35 : e2.length ≤ 35) :
    validateXML svc doc "pain.001" = ⟨false, [entriesTypeError], [], none⟩ := by
  have hmlen : ¬ (35 < m.length) := by omega
  have helen : ¬ (35 < e2.length) := by omega
  have hreq : checkRequired (toParsed doc) ["MsgId", "CreDtTm", "NbOfTxs", "EndToEndId"]
      = .ok () := by
    simp [checkRequired, hm, hcd, hnb, he, truthyOpt, truthyJ, hm0, hcd0, hnb0, he0]
  have hlen : checkMaxLength (toParsed doc) [("MsgId", 35), ("EndToEndId", 35)]
      = .ok () := by
    simp [checkMaxLength, hm, he, truthyJ, jsLenGT, hmlen, helen]
  have hiso : validateISO20022Rules (toParsed doc) "pain.001" = .error entriesTypeError := by
    have hstrip : stripFirstDot "pain.001" = "pain001" := by decide
    simp [validateISO20022Rules, hstrip, loadValidationRules, hreq, hlen]
    rfl
  simp [validateXML, hiso]

/-- Witness for claim C3 at the pain.001 document generated from a
concrete canonical record. -/
theorem pain001_validation_always_fails_witness :
    validateXML ⟨none⟩ doc3 "pain.001" = ⟨false, [entriesTypeError], [], none⟩ :=
  pain001_validation_always_fails ⟨none⟩ doc3 "MSGID3" "2025-01-01T00:00:00.000Z" "1" "E2E3"
    rfl (by decide) (by decide) rfl (by decide)
    rfl (by decide) rfl (by decide) (by decide)

/-- Claim C4 (counterexample): with an external conformance endpoint
configured (and the code never contacting any endpoint, so its
reachability cannot influence the outcome), `validateXML` returns no
warning at all — in particular not exactly one `ExternalValidatorUnavailable`
warning. -/
theorem validateXML_no_external_warning_cx :
    (validateXML ⟨some "http://unreachable.invalid:9999"⟩
        (generatePacs008XML mapped8) "pacs.008").warnings = []
    ∧ (validateXML ⟨some "http://unreachable.invalid:9999"⟩
        (generatePacs008XML mapped8) "pacs.008").isValid = true := by
  decide

/-- Claim C4 (amended): the validator never performs an external call:
its result is identical for every configured endpoint URL (the stored
`swiftSandboxUrl` is never read), and its warning list is always empty, so
external unavailability trivially never fails a validation and no
`ExternalValidatorUnavailable` warning is ever produced. -/
theorem validateXML_independent_of_external (u1 u2 : Option String)
    (doc : XElem) (mt : String) :
    validateXML ⟨u1⟩ doc mt = validateXML ⟨u2⟩ doc mt
    ∧ (validateXML ⟨u1⟩ doc mt).warnings = [] := by
  refine ⟨rfl, ?_⟩
  unfold validateXML
  cases validateISO20022Rules (toParsed doc) mt with
  | error msg => rfl
  | ok u =>
    show (if (validateWithEnhancedRules doc mt).valid = true then
            ({ isValid := true, errors := [], warnings := [],
               swiftValidation := some (validateWithEnhancedRules doc mt) } : ValidationResult)
          else
            { isValid := false, errors := (validateWithEnhancedRules doc mt).errors,
              warnings := (validateWithEnhancedRules doc mt).warnings,
              swiftValidation := some (validateWithEnhancedRules doc mt) }).warnings = []
    split <;> rfl

/-- Claim C6 (counterexample): a canonical record whose remittance object
is present with an empty `unstructured` text and whose purpose code is
empty still serializes with one remittance element — the serializer tests
the truthiness of the `remittanceInformation` object, not of its
`unstructured` text, so the element is not omitted when the text is
empty. -/
theorem pacs008_remittance_emitted_when_empty :
    countElems (generatePacs008XML recEmptyRemit) "RmtInf" = 1
    ∧ recEmptyRemit.remittanceInformation = some { unstructured := "" }
    ∧ recEmptyRemit.purposeCode = "" := by
  decide

/-- Claim C6 (amended): the pacs.008 serialization contains exactly one
remittance element when the `remittanceInformation` object is present
(whatever its text, including empty) and none when it is absent, and
exactly one purpose-code element when `purposeCode` is non-empty and none
when it is empty. -/
theorem pacs008_optional_blocks_by_truthiness (d : MappedData) :
    countElems (generatePacs008XML d) "RmtInf"
      = (match d.remittanceInformation with | some _ => 1 | none => 0)
    ∧ countElems (generatePacs008XML d) "Purp"
      = (if d.purposeCode = "" then 0 else 1) := by
  cases hR : d.remittanceInformation <;> by_cases hP : d.purposeCode = "" <;>
    simp [generatePacs008XML, countElems, elemsNamed, elemsNamedL, xnode, xleaf,
      xelem, toXList, hR, hP, pacs008Namespaces]

/-- Claim C8 (confirmed): mapping the end-to-end raw transaction and
serializing to pacs.008 yields exactly one settlement-amount element with
currency attribute `HCT` and text `100.00`, and validating the document
with the pacs.008 rule table passes with zero errors. -/
theorem pacs008_end_to_end_valid :
    (mapXRPLToISO20022 tx8 uuidSampleA uuidSampleB uuidSampleB nowSample).toOption
      = some mapped8
    ∧ ((elemsNamed (generatePacs008XML mapped8) "IntrBkSttlmAmt").map
        (fun e => (e.attrs, textContent e))) = [([("Ccy", "HCT")], "100.00")]
    ∧ validateXML ⟨none⟩ (generatePacs008XML mapped8) "pacs.008"
        = ⟨true, [], [], some ⟨true, [], []⟩⟩ := by
  decide

/-- Claim C10 (counterexample): a well-formed document containing one
invalid BIC element, validated under the unsupported selector `camt.053`,
is NOT reported vacuously valid: the BIC format check runs for every
message type, so the result is invalid with one BIC error. -/
theorem unknown_type_invalid_bic_fails :
    (validateXML ⟨none⟩ doc10 "camt.053").isValid = false
    ∧ (validateXML ⟨none⟩ doc10 "camt.053").errors = ["Invalid BIC format: XX"] := by
  decide

/-- Claim C10 (amended): an unsupported message-type selector (one whose
dot-stripped form is not a rule-table key) makes the rule-table lookup
silently succeed and the required-element list empty, so validation is
vacuous — but only the rule-table and element checks: the BIC and
`InstdAmt` format checks still run on every document, so the result is
valid with empty errors and warnings exactly when the document contains no
invalid BIC or `InstdAmt` element. -/
theorem unknown_type_vacuous_when_clean (svc : ValidationService) (doc : XElem)
    (mt : String)
    (h1 : stripFirstDot mt ≠ "pacs008") (h2 : stripFirstDot mt ≠ "pain001")
    (hB : ∀ e ∈ elemsNamed doc "BIC", isValidBIC (textContent e) = true)
    (hA : ∀ e ∈ elemsNamed doc "InstdAmt", isValidAmount (textContent e) = true) :
    validateXML svc doc mt = ⟨true, [], [], some ⟨true, [], []⟩⟩ := by
  have hmt1 : mt ≠ "pacs.008" := by
    intro he; subst he; exact h1 (by decide)
  have hmt2 : mt ≠ "pain.001" := by
    intro he; subst he; exact h2 (by decide)
  have hrule : loadValidationRules (stripFirstDot mt) = none := by
    simp [loadValidationRules, h1, h2]
  have hre : getRequiredElements mt = [] := by
    simp [getRequiredElements, hmt1, hmt2]
  have hbic : ((elemsNamed doc "BIC").map textContent).filter
      (fun b => !(isValidBIC b)) = [] := by
    rw [List.filter_eq_nil_iff]
    intro b hb
    obtain ⟨e, hee, rfl⟩ := List.mem_map.mp hb
    simp [hB e hee]
  have hamt : ((elemsNamed doc "InstdAmt").map textContent).filter
      (fun a => !(isValidAmount a)) = [] := by
    rw [List.filter_eq_nil_iff]
    intro a ha
    obtain ⟨e, hee, rfl⟩ := List.mem_map.mp ha
    simp [hA e hee]
  have henh : validateWithEnhancedRules doc mt = ⟨true, [], []⟩ := by
    unfold validateWithEnhancedRules
    rw [hre, hbic, hamt]
    simp
  simp [validateXML, validateISO20022Rules, hrule, henh]

/-- Witness for the amended claim C10 at a concrete document without BIC
or `InstdAmt` elements and the unsupported selector `camt.053`. -/
theorem unknown_type_vacuous_when_clean_witness :
    validateXML ⟨none⟩ (xleaf "Data" "x") "camt.053"
      = ⟨true, [], [], some ⟨true, [], []⟩⟩ :=
  unknown_type_vacuous_when_clean ⟨none⟩ (xleaf "Data" "x") "camt.053"
    (by decide) (by decide) (by decide) (by decide)
